import Mathlib

/-!
Verification of the GoldenHour triage console core (src/src/App.jsx).

The development shallowly embeds the state and pure logic of the React
components that the specification describes:

* `CriticalNotifications` (alert lifecycle: critical filter + session
  dismissal set),
* the `setInterval`-driven pollers of `QueuePage`, `DashboardPage` and
  `AnalyticsPage`,
* `AddPatientForm.submit` (validation, symptom normalisation, and the
  triage → prediction/recommendation orchestration),
* the `App`-level re-triage intent state,
* `QueuePage`'s `fetch_` error handling and the risk sort / category
  tallies of `QueuePage`, `DashboardPage` and `TopPatientsCard`.

React `useState` cells are modelled as fields of explicit state records;
event handlers and effects become step functions on those records; the
three network calls of the submit flow are modelled by an environment
record holding each call's outcome (`Except String _`).  JavaScript
numbers appearing in the modelled logic are integers in the source
(risk scores, interval milliseconds, input limits), so they are embedded
as `Int`/`Nat`.
-/

/-- A queue entry as consumed by the dashboard/queue components: the
fields of a `PatientRecord` that the modelled logic reads.  `triage` is
the `triage_category` string (the JSX reads `p.triage`). -/
structure Patient where
  patient_id : String
  triage : String
  risk_score : Int
  deriving DecidableEq, Repr

/-! ## CriticalNotifications (App.jsx lines 144-194)

The component holds a session-scoped `dismissed` set (a `useState(new
Set())`) and receives the current snapshot's `patients` as a prop.  It
renders `critical.slice(0, 5)` where

  critical = patients.filter(p => p.triage === "RED" || p.triage ===
  "ORANGE" || p.risk_score >= 60).filter(p => !dismissed.has(p.patient_id))

and the Dismiss button of a rendered alert adds its `patient_id` to
`dismissed`.  Nothing ever removes an id from `dismissed`. -/

/-- The critical filter of `CriticalNotifications`:
`p.triage === "RED" || p.triage === "ORANGE" || p.risk_score >= 60`. -/
def isCritical (p : Patient) : Bool :=
  p.triage == "RED" || p.triage == "ORANGE" || decide (p.risk_score ≥ 60)

/-- The critical subset of a snapshot, in snapshot order. -/
def criticalOf (l : List Patient) : List Patient :=
  l.filter isCritical

/-- State of the `CriticalNotifications` component: the `patients` prop as
of the latest poll, and the `dismissed` id set (kept as a list; the code
only tests membership and inserts). -/
structure CNState where
  patients : List Patient
  dismissed : List String
  deriving Repr

/-- Initial component state: `useState(new Set())` and an empty queue
before the first poll resolves. -/
def cnInit : CNState :=
  { patients := [], dismissed := [] }

/-- The `critical` list the component computes: critical subset minus
dismissed ids. -/
def rendered (s : CNState) : List Patient :=
  (criticalOf s.patients).filter (fun p => !(s.dismissed.contains p.patient_id))

/-- The alerts actually shown: `critical.slice(0, 5)`. -/
def visibleAlerts (s : CNState) : List Patient :=
  (rendered s).take 5

/-- Session events affecting the component: a poll replacing the
`patients` prop wholesale, or the user clicking Dismiss on an alert. -/
inductive CNEvent where
  | poll (snapshot : List Patient)
  | dismiss (id : String)
  deriving Repr

/-- One step of the component.  A poll replaces `patients`; a dismiss
click adds the id to `dismissed`.  The Dismiss button only exists on an
alert currently shown, so a dismiss of an id not among `visibleAlerts`
is a no-op. -/
def cnStep (s : CNState) : CNEvent → CNState
  | .poll ps => { s with patients := ps }
  | .dismiss id =>
      if (visibleAlerts s).any (fun p => p.patient_id == id) then
        { s with dismissed := id :: s.dismissed }
      else s

/-- Run a sequence of session events from a state. -/
def cnRun (s : CNState) (evs : List CNEvent) : CNState :=
  evs.foldl cnStep s

/-- Concrete patient used in the alert-lifecycle scenarios: critical by
risk and category. -/
def pHigh : Patient := { patient_id := "P1", triage := "RED", risk_score := 85 }

/-- The same patient after recovering: outside the critical subset. -/
def pLow : Patient := { patient_id := "P1", triage := "GREEN", risk_score := 30 }

/-- The same patient re-entering the critical subset. -/
def pRe : Patient := { patient_id := "P1", triage := "ORANGE", risk_score := 70 }

/-! ## Pollers (App.jsx lines 689, 1246-1250, 1338-1342)

Each page starts its poll with an immediate fetch and then
`setInterval(fetch, intervalMs)`:

* `QueuePage`: `fetch_(); const iv = setInterval(fetch_, 10000);`
* `DashboardPage`: `api.queue().then(...); setInterval(..., 15000);`
* `AnalyticsPage`: `loadSummary(); setInterval(loadSummary, 30000);`

Under `setInterval` semantics the callback fires at `intervalMs`,
`2*intervalMs`, ... regardless of whether the promise started by an
earlier tick has settled; there is no guard (no in-flight flag, no
re-arming timeout after settlement).  So tick `k` starts its fetch at
time `k * intervalMs` (tick 0 is the immediate fetch), and if the fetch
started by tick `k` takes `dur k` milliseconds it is in flight on the
half-open interval `[k*intervalMs, k*intervalMs + dur k)`. -/

/-- Start time of the poller's `k`-th fetch: the immediate fetch at 0,
then one per `setInterval` tick. -/
def tickStart (intervalMs k : ℕ) : ℕ := k * intervalMs

/-- The `k`-th fetch is in flight at time `t`, given each fetch's
duration. -/
def inFlightAt (intervalMs : ℕ) (dur : ℕ → ℕ) (k t : ℕ) : Prop :=
  tickStart intervalMs k ≤ t ∧ t < tickStart intervalMs k + dur k

instance (intervalMs : ℕ) (dur : ℕ → ℕ) (k t : ℕ) :
    Decidable (inFlightAt intervalMs dur k t) := by
  unfold inFlightAt; infer_instance

/-- The `QueuePage` poll cadence (ms). -/
def queuePollMs : ℕ := 10000

/-- The `DashboardPage` poll cadence (ms). -/
def dashboardPollMs : ℕ := 15000

/-- The `AnalyticsPage` poll cadence (ms). -/
def analyticsPollMs : ℕ := 30000

/-! ## QueuePage fetch and error handling (App.jsx lines 677-691)

`QueuePage` holds `queueData` (initially `null`) and `loading`
(initially `true`).  Its fetch is

  const fetch_ = async () => \x7b
    try \x7b const d = await api.queue(); setQueueData(d); \x7d catch \x7b\x7d
    setLoading(false);
  \x7d;

On success the snapshot is replaced wholesale; on failure the `catch`
block is empty, so the state is left untouched apart from
`setLoading(false)`.  `QueuePage` has no error or staleness field at
all. -/

/-- A queue snapshot as returned by `GET /queue`. -/
structure QueueSnapshot where
  patients : List Patient
  queue_last_updated : String
  deriving DecidableEq, Repr

/-- The `QueuePage` state touched by `fetch_`: the `queueData` and
`loading` `useState` cells (the remaining cells — selection, expansion,
history modal — are unrelated to fetching). -/
structure QueuePageState where
  queueData : Option QueueSnapshot
  loading : Bool
  deriving DecidableEq, Repr

/-- One run of `fetch_`, given the outcome of `api.queue()`.  The
function is total: the `catch` swallows the failure, so nothing
propagates to the caller. -/
def fetchQueue (s : QueuePageState) (outcome : Except String QueueSnapshot) :
    QueuePageState :=
  match outcome with
  | .ok d => { queueData := some d, loading := false }
  | .error _ => { s with loading := false }

/-- A concrete snapshot already on screen when a poll fails. -/
def snap0 : QueueSnapshot := { patients := [pHigh], queue_last_updated := "t0" }

/-! ## Risk-sorted views (App.jsx lines 691 and 1133)

`QueuePage` computes
`queueData?.patients?.slice().sort((a, b) => b.risk_score - a.risk_score)`
and `TopPatientsCard` computes
`[...patients].sort((a, b) => b.risk_score - a.risk_score).slice(0, 3)`.
ECMAScript `Array.prototype.sort` is required to be stable, and the
comparator orders by strictly greater `risk_score` first, so the result
is the unique permutation that is descending in `risk_score` and keeps
the original relative order of equal scores.  It is embedded as a
stable insertion sort with exactly that characterisation. -/

/-- Insert a patient into an already risk-sorted list: it goes after
every strictly higher score and before every equal-or-lower score (the
inserted element comes from earlier in the original list, so this is the
stable placement). -/
def insertByRisk (p : Patient) : List Patient → List Patient
  | [] => [p]
  | q :: qs =>
      if q.risk_score > p.risk_score then q :: insertByRisk p qs
      else p :: q :: qs

/-- The risk-sorted view: `slice().sort((a, b) => b.risk_score - a.risk_score)`. -/
def sortedByRisk (l : List Patient) : List Patient :=
  l.foldr insertByRisk []

/-- `topN`: `TopPatientsCard`'s `top3` is `sortedByRisk` then `slice(0, 3)`. -/
def topN (l : List Patient) (n : ℕ) : List Patient :=
  (sortedByRisk l).take n

/-! ## Category tallies (App.jsx lines 692 and 1252-1257)

`QueuePage` computes
`["RED","ORANGE","YELLOW","GREEN"].map(cat => (\x7bname: cat, count:
sorted.filter(p => p.triage === cat).length\x7d))` and `DashboardPage`
computes the four counts `red`/`orange`/`yellow`/`green` by the same
per-category filters over `pts`.  Every category of the fixed four gets
an entry even when its count is 0. -/

/-- The four triage categories, in display order. -/
def triageCategories : List String := ["RED", "ORANGE", "YELLOW", "GREEN"]

/-- The per-category tally: one `(category, count)` pair for each of the
four categories (zero-filled when absent from the list). -/
def categoryCounts (l : List Patient) : List (String × ℕ) :=
  triageCategories.map (fun c => (c, (l.filter (fun p => p.triage == c)).length))

/-! ## Symptom normalisation (App.jsx lines 314-321)

`submit` builds the payload symptom list by

  const symptoms = form.symptoms.split(",").map(s => s.trim()).filter(Boolean);
  const dedupedSymptoms = [...new Map(symptoms.map(s => [s.toLowerCase(), s])).values()];

A JavaScript `Map` keeps a key at its first-insertion position and
overwrites the stored value on a repeated key, so the result keeps one
entry per lowercase key, ordered by first occurrence, holding the last
occurrence's spelling.

Symptom text is embedded as `List Char` (a JavaScript string is a
sequence of characters) with the string operations the code uses —
`split(",")`, `trim()`, `toLowerCase()` — defined by structural
recursion on the character list, so all of them compute. -/

/-- A symptom entry: the character sequence of a JavaScript string. -/
abbrev JStr : Type := List Char

/-- Whitespace for `trim()`: space, tab, carriage return, line feed. -/
def isWS (c : Char) : Bool :=
  c = ' ' || c = '\t' || c = '\r' || c = '\n'

/-- `trim()`: strip leading and trailing whitespace. -/
def trimSym (s : JStr) : JStr :=
  ((s.dropWhile isWS).reverse.dropWhile isWS).reverse

/-- `toLowerCase()`, character by character. -/
def lowerSym (s : JStr) : JStr :=
  s.map Char.toLower

/-- `split(",")`: cut the character sequence at every comma (adjacent
commas give empty pieces, as in JavaScript). -/
def splitOnComma : List Char → List JStr
  | [] => [[]]
  | c :: rest =>
      match splitOnComma rest with
      | [] => [[c]]
      | piece :: pieces =>
          if c = ',' then [] :: piece :: pieces
          else (c :: piece) :: pieces

/-- `split(",").map(s => s.trim()).filter(Boolean)`: the cleaned symptom
entries, trimmed with empties dropped. -/
def cleanSymptoms (raw : List Char) : List JStr :=
  ((splitOnComma raw).map trimSym).filter (fun s => !(s == []))

/-- Insertion into the association list modelling the JavaScript `Map`:
an existing key keeps its position and takes the new value; a new key is
appended. -/
def insertSym (m : List (JStr × JStr)) (k v : JStr) : List (JStr × JStr) :=
  match m with
  | [] => [(k, v)]
  | (k0, v0) :: rest =>
      if k0 == k then (k0, v) :: rest else (k0, v0) :: insertSym rest k v

/-- `new Map(symptoms.map(s => [s.toLowerCase(), s]))` built left to
right. -/
def symMap (l : List JStr) : List (JStr × JStr) :=
  l.foldl (fun m s => insertSym m (lowerSym s) s) []

/-- `[...map.values()]`: the deduplicated symptom list sent in the
payload. -/
def dedupedSymptoms (l : List JStr) : List JStr :=
  (symMap l).map Prod.snd

/-- Specification-side helper: first-occurrence deduplication keeping
order, used to characterise the `Map` key order. -/
def firstOccDedup (l : List JStr) : List JStr :=
  l.foldl (fun acc k => if k ∈ acc then acc else acc ++ [k]) []

/-! ## AddPatientForm.submit (App.jsx lines 287-343)

The handler validates the form (vitals present and within
`INPUT_LIMITS`, at most 12 symptoms), builds the payload, issues
`api.triage(payload)`, and only on its success issues
`api.nextMove` and `api.recommendations` concurrently, each wrapped in
`.catch(() => null)`.  A thrown validation error or a rejected triage
call lands in the single `catch`, which stores the message in `error`.
The handler never invokes `onClearRetriage`.

The three network outcomes are modelled as an environment record; the
handler becomes a pure function from the form and the environment to
the component's settled state, extended with one call counter per
endpoint (and a flag recording whether `onClearRetriage` was invoked,
which the code never does). -/

/-- The vitals block of the triage payload. -/
structure Vitals where
  heart_rate : Int
  systolic_bp : Int
  spo2 : Int
  temperature : Int
  deriving DecidableEq, Repr

/-- The body of `POST /triage` as built by `submit`. -/
structure TriagePayload where
  patient_id : String
  age : Int
  gender : String
  rural : Bool
  vitals : Vitals
  symptoms : List JStr
  deriving DecidableEq, Repr

/-- The form fields read by `submit`.  Numeric fields hold the result of
`Number(...)` (`none` models a non-finite result, which fails the
`Number.isFinite` guard); `symptoms` is the raw comma-separated text
(as a character sequence). -/
structure FormState where
  patient_id : String
  age : Option Int
  gender : String
  rural : Bool
  heart_rate : Option Int
  systolic_bp : Option Int
  spo2 : Option Int
  temperature : Option Int
  symptoms : List Char
  deriving DecidableEq, Repr

/-- The response of `GET /recommendations/clinical`: `submit` reads its
`recommendations` list. -/
structure RecResponse where
  recommendations : List String
  deriving DecidableEq, Repr

/-- Outcomes of the three calls `submit` can issue, one per endpoint.
`R` is the triage response type and `P` the prediction response type:
`submit` stores both verbatim without inspecting them. -/
structure SubmitEnv (R P : Type) where
  triage : Except String R
  nextMove : Except String P
  recommendations : Except String RecResponse

/-- The settled component state after `submit` returns, plus one call
counter per endpoint and the (never set) retriage-clear flag. -/
structure SubmitState (R P : Type) where
  result : Option R
  error : Option String
  nextMove : Option P
  recommendations : List String
  loading : Bool
  triageCalls : ℕ
  nextMoveCalls : ℕ
  recCalls : ℕ
  clearRetriageCalled : Bool

/-- The validation prefix of `submit`: the `Number.isFinite` guard, the
`INPUT_LIMITS` range loop (in `rangeChecks` order), the 12-symptom cap,
and payload construction. -/
def validate (f : FormState) : Except String TriagePayload :=
  match f.age, f.heart_rate, f.systolic_bp, f.spo2, f.temperature with
  | some age, some hr, some sbp, some sp, some temp =>
      if age < 0 ∨ age > 120 then
        .error "Age must be between 0 and 120."
      else if hr < 20 ∨ hr > 240 then
        .error "Heart rate must be between 20 and 240."
      else if sbp < 50 ∨ sbp > 260 then
        .error "Systolic BP must be between 50 and 260."
      else if sp < 50 ∨ sp > 100 then
        .error "SpO2 must be between 50 and 100."
      else if temp < 30 ∨ temp > 45 then
        .error "Temperature must be between 30 and 45."
      else if (cleanSymptoms f.symptoms).length > 12 then
        .error "Please provide up to 12 symptoms only."
      else
        .ok { patient_id := f.patient_id, age := age, gender := f.gender,
              rural := f.rural,
              vitals := { heart_rate := hr, systolic_bp := sbp,
                          spo2 := sp, temperature := temp },
              symptoms := dedupedSymptoms (cleanSymptoms f.symptoms) }
  | _, _, _, _, _ => .error "Please fill all required vitals before submitting."

/-- The whole `submit` handler: validation, then `api.triage`; only on
its success the two secondary calls, each degraded to `null` (or `[]`)
on its own failure.  The single `catch` stores the error message; the
secondary failures never reach it. -/
def submit {R P : Type} (f : FormState) (env : SubmitEnv R P) : SubmitState R P :=
  match validate f with
  | .error msg =>
      { result := none, error := some msg, nextMove := none,
        recommendations := [], loading := false,
        triageCalls := 0, nextMoveCalls := 0, recCalls := 0,
        clearRetriageCalled := false }
  | .ok _ =>
      match env.triage with
      | .error msg =>
          { result := none, error := some msg, nextMove := none,
            recommendations := [], loading := false,
            triageCalls := 1, nextMoveCalls := 0, recCalls := 0,
            clearRetriageCalled := false }
      | .ok data =>
          { result := some data,
            error := none,
            nextMove := match env.nextMove with
              | .ok p => some p
              | .error _ => none,
            recommendations := match env.recommendations with
              | .ok r => r.recommendations
              | .error _ => [],
            loading := false,
            triageCalls := 1, nextMoveCalls := 1, recCalls := 1,
            clearRetriageCalled := false }

/-! ## Re-triage intent (App.jsx lines 1484-1510)

`App` holds `retriagePatient` (initially `null`).  It is set by
`handleRetriage(patient)` and cleared by the `onClearRetriage` callback
wired to the explicit Cancel button; no other code path touches it — in
particular `submit` does not (see `clearRetriageCalled` above). -/

/-- Events affecting `App.retriagePatient`: starting a re-triage,
the explicit clear/cancel action, and a submission (for the current
intent) succeeding. -/
inductive AppEvent where
  | beginRetriage (p : Patient)
  | clearRetriage
  | submitSucceeds
  deriving Repr

/-- The `retriagePatient` transition: `handleRetriage` sets it,
`onClearRetriage` clears it, and a successful submission leaves it
untouched (no code path reacts to submission success). -/
def retriageStep (s : Option Patient) : AppEvent → Option Patient
  | .beginRetriage p => some p
  | .clearRetriage => none
  | .submitSucceeds => s

/-- A concrete valid form: the re-triage scenario patient of the spec
with in-range vitals and a symptom list containing a case-insensitive
duplicate. -/
def form0 : FormState :=
  { patient_id := "PAT-2026-042", age := some 57, gender := "Male",
    rural := false, heart_rate := some 82, systolic_bp := some 120,
    spo2 := some 97, temperature := some 37,
    symptoms := "Fever, fever, chest pain".toList }

/-- The payload `validate` builds from `form0`: the duplicate symptom is
collapsed onto the first occurrence's position with the last
occurrence's spelling. -/
def payload0 : TriagePayload :=
  { patient_id := "PAT-2026-042", age := 57, gender := "Male",
    rural := false,
    vitals := { heart_rate := 82, systolic_bp := 120, spo2 := 97,
                temperature := 37 },
    symptoms := ["fever".toList, "chest pain".toList] }

/-- An environment whose primary triage call fails (simulated 422). -/
def env422 : SubmitEnv Unit Unit :=
  { triage := .error "Age must be a valid value.",
    nextMove := .ok (),
    recommendations := .ok { recommendations := ["r1"] } }

/-- An environment whose primary call succeeds and both secondary calls
fail (simulated timeouts). -/
def envTimeout : SubmitEnv String Unit :=
  { triage := .ok "primary-triage-result",
    nextMove := .error "timeout",
    recommendations := .error "timeout" }

/-- An environment where all three calls succeed. -/
def envOk : SubmitEnv String Unit :=
  { triage := .ok "primary-triage-result",
    nextMove := .ok (),
    recommendations := .ok { recommendations := ["r1"] } }

lemma cnStep_dismissed_mono (s : CNState) (e : CNEvent) (id : String)
    (h : id ∈ s.dismissed) : id ∈ (cnStep s e).dismissed := by
  cases e with
  | poll ps => exact h
  | dismiss j =>
      unfold cnStep
      by_cases hc : (visibleAlerts s).any (fun p => p.patient_id == j) = true
      · simp [hc, h]
      · simp [hc, h]

lemma cnRun_dismissed_mono (s : CNState) (evs : List CNEvent) (id : String)
    (h : id ∈ s.dismissed) : id ∈ (cnRun s evs).dismissed := by
  induction evs generalizing s with
  | nil => exact h
  | cons e evs ih => exact ih _ (cnStep_dismissed_mono s e id h)

lemma dismissed_not_rendered (s : CNState) (id : String)
    (h : id ∈ s.dismissed) : id ∉ (rendered s).map Patient.patient_id := by
  intro hmem
  rcases List.mem_map.1 hmem with ⟨p, hp, hpid⟩
  rcases List.mem_filter.1 hp with ⟨_, hkeep⟩
  rw [hpid] at hkeep
  have hc : s.dismissed.contains id = true := by
    simpa [List.contains] using List.elem_eq_true_of_mem h
  rw [hc] at hkeep
  simp at hkeep

/-- Claim C6: if a patient id has been dismissed and stays in the
critical subset of every subsequent snapshot, its alert is never
rendered again (the dismissal never auto-reverts to active). -/
theorem dismissed_stays_hidden_while_critical
    (s : CNState) (evs : List CNEvent) (id : String)
    (hdis : id ∈ s.dismissed)
    (hcrit : ∀ snap, CNEvent.poll snap ∈ evs →
      id ∈ (criticalOf snap).map Patient.patient_id) :
    id ∉ (visibleAlerts (cnRun s evs)).map Patient.patient_id := by
  intro hmem
  have hdis2 : id ∈ (cnRun s evs).dismissed := cnRun_dismissed_mono s evs id hdis
  apply dismissed_not_rendered (cnRun s evs) id hdis2
  rcases List.mem_map.1 hmem with ⟨p, hp, hpid⟩
  exact List.mem_map.2 ⟨p, List.take_subset 5 _ hp, hpid⟩

/-- Claim C6, witness: patient P1 dismissed, a later poll keeps it
critical (risk 85, RED), and it is indeed not shown. -/
theorem dismissed_stays_hidden_while_critical_witness :
    "P1" ∉ (visibleAlerts (cnRun { patients := [pHigh], dismissed := ["P1"] }
      [CNEvent.poll [pHigh]])).map Patient.patient_id := by
  apply dismissed_stays_hidden_while_critical
  · decide
  · intro snap hsnap
    simp only [List.mem_singleton] at hsnap
    cases hsnap
    decide

/-- Claim C1, counterexample: P1 is dismissed while critical, drops out
of the critical subset on the next poll, re-enters it on the poll after,
and is nevertheless NOT rendered again: the dismissal survives the full
exit from critical state, contrary to the claim. -/
theorem dismissal_survives_exit_counterexample :
    ("P1" ∈ (criticalOf [pHigh]).map Patient.patient_id) ∧
    ("P1" ∉ (criticalOf [pLow]).map Patient.patient_id) ∧
    ("P1" ∈ (criticalOf [pRe]).map Patient.patient_id) ∧
    ("P1" ∈ (cnRun cnInit [CNEvent.poll [pHigh], CNEvent.dismiss "P1",
        CNEvent.poll [pLow], CNEvent.poll [pRe]]).dismissed) ∧
    ("P1" ∉ (rendered (cnRun cnInit [CNEvent.poll [pHigh], CNEvent.dismiss "P1",
        CNEvent.poll [pLow], CNEvent.poll [pRe]])).map Patient.patient_id) := by
  decide

/-- Claim C1 (amended): a dismissal is sticky for the lifetime of the
dashboard view: once an id is in the dismissed set it stays there across
every later poll — including a full exit from and re-entry into the
critical subset — and its alert is never rendered again. -/
theorem dismissal_sticky_for_session
    (s : CNState) (evs : List CNEvent) (id : String)
    (hdis : id ∈ s.dismissed) :
    id ∈ (cnRun s evs).dismissed ∧
    id ∉ (rendered (cnRun s evs)).map Patient.patient_id :=
  ⟨cnRun_dismissed_mono s evs id hdis,
   dismissed_not_rendered _ _ (cnRun_dismissed_mono s evs id hdis)⟩

/-- Claim C1 (amended), witness: instantiated on the exit/re-entry trace
of the counterexample, starting right after the dismissal. -/
theorem dismissal_sticky_for_session_witness :
    "P1" ∈ (cnRun { patients := [pHigh], dismissed := ["P1"] }
      [CNEvent.poll [pLow], CNEvent.poll [pRe]]).dismissed ∧
    "P1" ∉ (rendered (cnRun { patients := [pHigh], dismissed := ["P1"] }
      [CNEvent.poll [pLow], CNEvent.poll [pRe]])).map Patient.patient_id :=
  dismissal_sticky_for_session _ _ _ (by decide)

/-- Claim C2, counterexample: on the queue poller (10s cadence), if the
fetch started at tick 0 takes 15s, it is still in flight at t = 10000 ms
when tick 1 starts its own fetch — two fetches of the same poller are in
flight simultaneously, contrary to the claim that a new tick begins only
after the previous fetch has settled. -/
theorem poller_overlap_counterexample :
    (0 : ℕ) ≠ 1 ∧
    inFlightAt queuePollMs (fun _ => 15000) 0 10000 ∧
    inFlightAt queuePollMs (fun _ => 15000) 1 10000 := by
  refine ⟨by decide, ?_, ?_⟩ <;> (constructor <;> decide)

/-- Claim C2 (amended): the pollers are plain `setInterval` loops with no
single-flight guard: a new fetch starts every `intervalMs` regardless of
whether the previous one has settled, so two fetches of the same poller
overlap exactly when some fetch outlasts the interval.  In particular,
whenever every fetch settles within the interval, no two fetches are
ever in flight simultaneously. -/
theorem poller_no_overlap_iff_fast
    (intervalMs : ℕ) (dur : ℕ → ℕ)
    (hfast : ∀ k, dur k ≤ intervalMs) :
    ∀ j k t, j ≠ k →
      ¬(inFlightAt intervalMs dur j t ∧ inFlightAt intervalMs dur k t) := by
  have key : ∀ j k t, j < k →
      ¬(inFlightAt intervalMs dur j t ∧ inFlightAt intervalMs dur k t) := by
    intro j k t hjk ⟨⟨_, hj2⟩, ⟨hk1, _⟩⟩
    have h1 : t < (j + 1) * intervalMs := by
      calc t < tickStart intervalMs j + dur j := hj2
        _ ≤ j * intervalMs + intervalMs := Nat.add_le_add_left (hfast j) _
        _ = (j + 1) * intervalMs := by ring
    have h2 : (j + 1) * intervalMs ≤ k * intervalMs :=
      Nat.mul_le_mul_right _ hjk
    exact absurd hk1 (Nat.not_le.2 (lt_of_lt_of_le h1 h2))
  intro j k t hne hboth
  rcases Nat.lt_or_ge j k with h | h
  · exact key j k t h hboth
  · rcases Nat.lt_of_le_of_ne h (fun he => hne he.symm) with h2
    exact key k j t h2 ⟨hboth.2, hboth.1⟩

/-- Claim C2 (amended), witness: with every fetch settling in 5s on the
10s queue cadence, fetches 0 and 1 do not overlap at t = 10000 ms. -/
theorem poller_no_overlap_iff_fast_witness :
    ¬(inFlightAt queuePollMs (fun _ => 5000) 0 10000 ∧
      inFlightAt queuePollMs (fun _ => 5000) 1 10000) :=
  poller_no_overlap_iff_fast queuePollMs (fun _ => 5000)
    (by intro k; show (5000 : ℕ) ≤ queuePollMs; decide) 0 1 10000 (by decide)

/-- Claim C7, counterexample: a failed poll on a settled `QueuePage`
leaves the state byte-for-byte identical — the stale snapshot stays, but
no error or staleness flag of any kind is raised; the failure is
unobservable to the consumer. -/
theorem queue_fetch_failure_counterexample :
    fetchQueue { queueData := some snap0, loading := false } (.error "API 500")
      = { queueData := some snap0, loading := false } := by
  rfl

/-- Claim C7 (amended): a failed queue fetch leaves the previously
exposed snapshot visible and unchanged and propagates no exception
(`fetchQueue` is total and returns the old state with only `loading`
cleared), but it raises no error/staleness flag: the resulting state
carries no record of the failure. -/
theorem queue_fetch_failure_silent
    (s : QueuePageState) (e : String) :
    fetchQueue s (.error e) = { s with loading := false } := by
  rfl

lemma insertByRisk_perm (p : Patient) (s : List Patient) :
    List.Perm (insertByRisk p s) (p :: s) := by
  induction s with
  | nil => simp [insertByRisk]
  | cons q qs ih =>
      unfold insertByRisk
      by_cases h : q.risk_score > p.risk_score
      · simp only [h, if_true]
        exact (ih.cons q).trans (List.Perm.swap p q qs)
      · simp [h]

lemma sortedByRisk_perm (l : List Patient) :
    List.Perm (sortedByRisk l) l := by
  induction l with
  | nil => simp [sortedByRisk]
  | cons p l ih =>
      have : sortedByRisk (p :: l) = insertByRisk p (sortedByRisk l) := rfl
      rw [this]
      exact (insertByRisk_perm p (sortedByRisk l)).trans (ih.cons p)

lemma insertByRisk_sorted (p : Patient) (s : List Patient)
    (h : s.Pairwise (fun a b => b.risk_score ≤ a.risk_score)) :
    (insertByRisk p s).Pairwise (fun a b => b.risk_score ≤ a.risk_score) := by
  induction s with
  | nil => simp [insertByRisk]
  | cons q qs ih =>
      rcases List.pairwise_cons.1 h with ⟨hq, hqs⟩
      unfold insertByRisk
      by_cases hc : q.risk_score > p.risk_score
      · simp only [hc, if_true]
        refine List.pairwise_cons.2 ⟨?_, ih hqs⟩
        intro x hx
        have hx2 : x ∈ p :: qs := (insertByRisk_perm p qs).mem_iff.1 hx
        rcases List.mem_cons.1 hx2 with hx3 | hx3
        · rw [hx3]; exact le_of_lt hc
        · exact hq x hx3
      · simp only [hc, if_false]
        refine List.pairwise_cons.2 ⟨?_, h⟩
        intro x hx
        rcases List.mem_cons.1 hx with hx | hx
        · rw [hx]; exact le_of_not_lt hc
        · exact le_trans (hq x hx) (le_of_not_lt hc)

lemma sortedByRisk_sorted (l : List Patient) :
    (sortedByRisk l).Pairwise (fun a b => b.risk_score ≤ a.risk_score) := by
  induction l with
  | nil => simp [sortedByRisk]
  | cons p l ih => exact insertByRisk_sorted p (sortedByRisk l) ih

lemma filter_insertByRisk (r : ℤ) (p : Patient) (s : List Patient) :
    (insertByRisk p s).filter (fun x => x.risk_score == r)
      = if p.risk_score = r
        then p :: s.filter (fun x => x.risk_score == r)
        else s.filter (fun x => x.risk_score == r) := by
  induction s with
  | nil =>
      by_cases hp : p.risk_score = r
      · simp [insertByRisk, List.filter, hp]
      · have hb : (p.risk_score == r) = false := beq_eq_false_iff_ne.mpr hp
        simp [insertByRisk, List.filter, hp, hb]
  | cons q qs ih =>
      unfold insertByRisk
      by_cases hc : q.risk_score > p.risk_score
      · simp only [hc, if_true]
        by_cases hp : p.risk_score = r
        · have hq : q.risk_score ≠ r := by omega
          simp [List.filter_cons, hq, ih, hp]
        · simp [List.filter_cons, ih, hp]
      · simp only [hc, if_false]
        by_cases hp : p.risk_score = r <;>
          simp [List.filter_cons, hp]

lemma sortedByRisk_stable (l : List Patient) (r : ℤ) :
    (sortedByRisk l).filter (fun x => x.risk_score == r)
      = l.filter (fun x => x.risk_score == r) := by
  induction l with
  | nil => rfl
  | cons p l ih =>
      have he : sortedByRisk (p :: l) = insertByRisk p (sortedByRisk l) := rfl
      rw [he, filter_insertByRisk]
      by_cases hp : p.risk_score = r <;>
        simp [List.filter_cons, hp, ih]

/-- Claim C8: the risk-sorted view is a permutation of the snapshot,
ordered by descending `risk_score`, and the sort is stable: for every
risk value, the patients with that score appear in exactly their
snapshot order.  (`sortedByRisk` is a pure function of the snapshot, so
repeated calls on the same snapshot return the identical list.) -/
theorem sortedByRisk_spec (l : List Patient) :
    List.Perm (sortedByRisk l) l ∧
    (sortedByRisk l).Pairwise (fun a b => b.risk_score ≤ a.risk_score) ∧
    ∀ r : ℤ, (sortedByRisk l).filter (fun x => x.risk_score == r)
      = l.filter (fun x => x.risk_score == r) :=
  ⟨sortedByRisk_perm l, sortedByRisk_sorted l, sortedByRisk_stable l⟩

lemma four_counts (l : List Patient)
    (h : ∀ p ∈ l, p.triage ∈ triageCategories) :
    (l.filter (fun p => p.triage == "RED")).length
    + (l.filter (fun p => p.triage == "ORANGE")).length
    + (l.filter (fun p => p.triage == "YELLOW")).length
    + (l.filter (fun p => p.triage == "GREEN")).length = l.length := by
  induction l with
  | nil => rfl
  | cons p l ih =>
      have hp : p.triage ∈ triageCategories := h p (List.mem_cons_self p l)
      have hrest : ∀ q ∈ l, q.triage ∈ triageCategories :=
        fun q hq => h q (List.mem_cons_of_mem p hq)
      have ih2 := ih hrest
      simp only [triageCategories, List.mem_cons, List.not_mem_nil,
        or_false] at hp
      rcases hp with hp | hp | hp | hp <;>
        (simp [List.filter_cons, hp]; omega)

/-- Claim C9: the tallies cover exactly the four triage categories in
order (zero-filled when absent), and over any snapshot whose patients
carry one of the four categories their counts sum to the number of
patients. -/
theorem categoryCounts_total (l : List Patient)
    (h : ∀ p ∈ l, p.triage ∈ triageCategories) :
    (categoryCounts l).map Prod.fst = triageCategories ∧
    ((categoryCounts l).map Prod.snd).sum = l.length := by
  constructor
  · simp [categoryCounts, triageCategories]
  · have he : ((categoryCounts l).map Prod.snd).sum
        = (l.filter (fun p => p.triage == "RED")).length
        + (l.filter (fun p => p.triage == "ORANGE")).length
        + (l.filter (fun p => p.triage == "YELLOW")).length
        + (l.filter (fun p => p.triage == "GREEN")).length := by
      simp [categoryCounts, triageCategories]; omega
    rw [he]
    exact four_counts l h

/-- Claim C9, witness: a two-patient snapshot (one RED, one GREEN) whose
four tallies are (1, 0, 0, 1) and sum to 2. -/
theorem categoryCounts_total_witness :
    (categoryCounts [pHigh, pLow]).map Prod.fst = triageCategories ∧
    ((categoryCounts [pHigh, pLow]).map Prod.snd).sum = ([pHigh, pLow] : List Patient).length :=
  categoryCounts_total [pHigh, pLow] (by decide)

/-- Claim C3: when the form validates but the primary triage call fails,
`submit` issues zero prediction calls and zero recommendation calls and
surfaces the failure's error message. -/
theorem primary_failure_stops {R P : Type} (f : FormState) (env : SubmitEnv R P)
    (payload : TriagePayload) (msg : String)
    (hv : validate f = .ok payload) (ht : env.triage = .error msg) :
    (submit f env).nextMoveCalls = 0 ∧ (submit f env).recCalls = 0 ∧
    (submit f env).error = some msg := by
  unfold submit
  rw [hv, ht]
  exact ⟨rfl, rfl, rfl⟩

/-- Claim C3, witness: a valid form against a rejecting primary call —
no secondary calls, and the message is surfaced. -/
theorem primary_failure_stops_witness :
    (submit form0 env422).nextMoveCalls = 0 ∧
    (submit form0 env422).recCalls = 0 ∧
    (submit form0 env422).error = some "Age must be a valid value." :=
  primary_failure_stops form0 env422 payload0 "Age must be a valid value."
    rfl rfl

/-- Claim C4: when the primary triage call succeeds and a secondary call
fails, the primary result stays stored unchanged, the failed section
degrades (prediction `none`, recommendations `[]`), and no error is
recorded — the single catch is never reached. -/
theorem secondary_failure_degrades {R P : Type} (f : FormState)
    (env : SubmitEnv R P) (payload : TriagePayload) (data : R)
    (hv : validate f = .ok payload) (ht : env.triage = .ok data)
    (hfail : (∃ e, env.nextMove = .error e) ∨
      (∃ e, env.recommendations = .error e)) :
    (submit f env).result = some data ∧
    (submit f env).error = none ∧
    (∀ e, env.nextMove = .error e → (submit f env).nextMove = none) ∧
    (∀ e, env.recommendations = .error e →
      (submit f env).recommendations = []) := by
  unfold submit
  rw [hv, ht]
  refine ⟨rfl, rfl, ?_, ?_⟩
  · intro e he; rw [he]
  · intro e he; rw [he]

/-- Claim C4, witness: both secondary calls time out; the primary result
is shown, prediction is `none`, recommendations `[]`, no error. -/
theorem secondary_failure_degrades_witness :
    (submit form0 envTimeout).result = some "primary-triage-result" ∧
    (submit form0 envTimeout).error = none ∧
    (∀ e, envTimeout.nextMove = .error e →
      (submit form0 envTimeout).nextMove = none) ∧
    (∀ e, envTimeout.recommendations = .error e →
      (submit form0 envTimeout).recommendations = []) :=
  secondary_failure_degrades form0 envTimeout payload0 "primary-triage-result"
    rfl rfl (Or.inl ⟨"timeout", rfl⟩)

/-- Claim C5, counterexample: after `beginRetriage` and a successful
submission, the re-triage intent is still set (and `submit` never
invoked the clear callback) — the intent is NOT cleared automatically,
contrary to the claim; only the explicit clear action clears it. -/
theorem retriage_not_autocleared_counterexample :
    retriageStep (retriageStep none (AppEvent.beginRetriage pHigh))
        AppEvent.submitSucceeds = some pHigh ∧
    some pHigh ≠ (none : Option Patient) ∧
    (submit form0 envOk).clearRetriageCalled = false := by
  refine ⟨rfl, by simp, ?_⟩
  rfl

/-- Claim C5 (amended): the re-triage intent survives a successful
submission untouched — `submit` never invokes `onClearRetriage`, and the
only transition that clears `retriagePatient` is the explicit clear
action. -/
theorem retriage_cleared_only_explicitly {R P : Type} (f : FormState)
    (env : SubmitEnv R P) (s : Option Patient) :
    (submit f env).clearRetriageCalled = false ∧
    retriageStep s AppEvent.submitSucceeds = s ∧
    retriageStep s AppEvent.clearRetriage = none := by
  refine ⟨?_, rfl, rfl⟩
  unfold submit
  cases hv : validate f with
  | error msg => rfl
  | ok payload => cases ht : env.triage <;> rfl

lemma insertSym_pred (Pr : JStr × JStr → Prop) (m : List (JStr × JStr))
    (k v : JStr) (hm : ∀ pr ∈ m, Pr pr) (hv : Pr (k, v)) :
    ∀ pr ∈ insertSym m k v, Pr pr := by
  induction m with
  | nil =>
      intro pr hpr
      simp only [insertSym, List.mem_singleton] at hpr
      rw [hpr]; exact hv
  | cons hd rest ih =>
      intro pr hpr
      obtain ⟨k0, v0⟩ := hd
      by_cases hc : (k0 == k) = true
      · simp only [insertSym, hc, if_true, List.mem_cons] at hpr
        rcases hpr with h | h
        · rw [h]
          have hk : k0 = k := eq_of_beq hc
          rw [hk]; exact hv
        · exact hm _ (List.mem_cons_of_mem _ h)
      · simp only [insertSym, hc, Bool.false_eq_true, if_false,
          List.mem_cons] at hpr
        rcases hpr with h | h
        · rw [h]; exact hm _ (List.mem_cons_self _ _)
        · exact ih (fun pr hpr => hm pr (List.mem_cons_of_mem _ hpr)) _ h

lemma symMap_pred (L : List JStr) :
    ∀ (l : List JStr) (m : List (JStr × JStr)),
      (∀ s ∈ l, s ∈ L) →
      (∀ pr ∈ m, pr.1 = lowerSym pr.2 ∧ pr.2 ∈ L) →
      ∀ pr ∈ l.foldl (fun m s => insertSym m (lowerSym s) s) m,
        pr.1 = lowerSym pr.2 ∧ pr.2 ∈ L := by
  intro l
  induction l with
  | nil => intro m _ hm; exact hm
  | cons s l ih =>
      intro m hl hm
      exact ih _ (fun x hx => hl x (List.mem_cons_of_mem _ hx))
        (insertSym_pred _ m (lowerSym s) s hm
          ⟨rfl, hl s (List.mem_cons_self _ _)⟩)

lemma insertSym_keys (m : List (JStr × JStr)) (k v : JStr) :
    (insertSym m k v).map Prod.fst
      = if k ∈ m.map Prod.fst then m.map Prod.fst
        else m.map Prod.fst ++ [k] := by
  induction m with
  | nil => simp [insertSym]
  | cons hd rest ih =>
      obtain ⟨k0, v0⟩ := hd
      by_cases hc : k0 = k
      · subst hc
        simp [insertSym]
      · have hb : (k0 == k) = false := beq_eq_false_iff_ne.mpr hc
        simp only [insertSym, hb, Bool.false_eq_true, if_false,
          List.map_cons]
        rw [ih]
        by_cases hmem : k ∈ rest.map Prod.fst
        · simp [hmem, Ne.symm hc]
        · simp [hmem, Ne.symm hc]

lemma symMap_keys_aux :
    ∀ (l : List JStr) (m : List (JStr × JStr)),
      ((l.foldl (fun m s => insertSym m (lowerSym s) s) m).map Prod.fst)
        = (l.map lowerSym).foldl
            (fun acc k => if k ∈ acc then acc else acc ++ [k])
            (m.map Prod.fst) := by
  intro l
  induction l with
  | nil => intro m; rfl
  | cons s l ih =>
      intro m
      show ((l.foldl _ (insertSym m (lowerSym s) s)).map Prod.fst) = _
      rw [ih, List.map_cons, List.foldl_cons]
      congr 1
      exact insertSym_keys m (lowerSym s) s

lemma symMap_keys (l : List JStr) :
    (symMap l).map Prod.fst = firstOccDedup (l.map lowerSym) :=
  symMap_keys_aux l []

lemma firstOccDedup_aux_nodup :
    ∀ (l acc : List JStr), acc.Nodup →
      (l.foldl (fun acc k => if k ∈ acc then acc else acc ++ [k]) acc).Nodup := by
  intro l
  induction l with
  | nil => intro acc h; exact h
  | cons s l ih =>
      intro acc h
      show (l.foldl _ (if s ∈ acc then acc else acc ++ [s])).Nodup
      apply ih
      by_cases hs : s ∈ acc
      · simpa [hs] using h
      · simp only [hs, if_false]
        exact List.Nodup.append h (List.nodup_singleton s)
          (by simp [List.disjoint_singleton, hs])

lemma firstOccDedup_nodup (l : List JStr) : (firstOccDedup l).Nodup :=
  firstOccDedup_aux_nodup l [] List.nodup_nil

lemma values_lower_eq_keys (m : List (JStr × JStr))
    (h : ∀ pr ∈ m, pr.1 = lowerSym pr.2) :
    (m.map Prod.snd).map lowerSym = m.map Prod.fst := by
  induction m with
  | nil => rfl
  | cons hd rest ih =>
      simp only [List.map_cons]
      rw [ih (fun pr hpr => h pr (List.mem_cons_of_mem _ hpr))]
      rw [← h hd (List.mem_cons_self _ _)]

lemma validate_ok_symptoms (f : FormState) (payload : TriagePayload)
    (hv : validate f = .ok payload) :
    payload.symptoms = dedupedSymptoms (cleanSymptoms f.symptoms) := by
  unfold validate at hv
  split at hv
  · split_ifs at hv <;> first
      | exact Except.noConfusion hv
      | (injection hv with h; rw [← h])
  · exact Except.noConfusion hv

lemma dedupedSymptoms_spec (l : List JStr) :
    (∀ s ∈ dedupedSymptoms l, s ∈ l) ∧
    ((dedupedSymptoms l).map lowerSym).Nodup ∧
    (dedupedSymptoms l).map lowerSym = firstOccDedup (l.map lowerSym) := by
  have hpred : ∀ pr ∈ symMap l, pr.1 = lowerSym pr.2 ∧ pr.2 ∈ l :=
    symMap_pred l l [] (fun s hs => hs) (fun pr hpr => absurd hpr (List.not_mem_nil pr))
  have hvals : (dedupedSymptoms l).map lowerSym = (symMap l).map Prod.fst :=
    values_lower_eq_keys (symMap l) (fun pr hpr => (hpred pr hpr).1)
  refine ⟨?_, ?_, ?_⟩
  · intro s hs
    rcases List.mem_map.1 hs with ⟨pr, hpr, hsnd⟩
    rw [← hsnd]
    exact (hpred pr hpr).2
  · rw [hvals, symMap_keys]
    exact firstOccDedup_nodup _
  · rw [hvals, symMap_keys]

/-- Claim C10: the symptom list of every payload built by a submission
is an ordered, case-insensitively deduplicated set: every entry is a
trimmed, non-empty piece of the comma-split input; no two entries are
equal ignoring case; and the entries appear in the order of the first
case-insensitive occurrence of their lowercase class in the input
(the retained spelling is that of the last occurrence, per JavaScript
`Map` value overwrite). -/
theorem symptoms_payload_dedup (f : FormState) (payload : TriagePayload)
    (hv : validate f = .ok payload) :
    (∀ s ∈ payload.symptoms,
      (∃ piece ∈ splitOnComma f.symptoms, s = trimSym piece) ∧ s ≠ []) ∧
    (payload.symptoms.map lowerSym).Nodup ∧
    payload.symptoms.map lowerSym
      = firstOccDedup ((cleanSymptoms f.symptoms).map lowerSym) := by
  have hsym := validate_ok_symptoms f payload hv
  obtain ⟨hmem, hnodup, horder⟩ := dedupedSymptoms_spec (cleanSymptoms f.symptoms)
  refine ⟨?_, by rw [hsym]; exact hnodup, by rw [hsym]; exact horder⟩
  intro s hs
  have hs2 : s ∈ cleanSymptoms f.symptoms := hmem s (hsym ▸ hs)
  rcases List.mem_filter.1 hs2 with ⟨hin, hne⟩
  rcases List.mem_map.1 hin with ⟨piece, hpiece, htrim⟩
  refine ⟨⟨piece, hpiece, htrim.symm⟩, ?_⟩
  simpa using hne

/-- Claim C10, witness: the duplicate in "Fever, fever, chest pain"
collapses to a two-entry ordered set. -/
theorem symptoms_payload_dedup_witness :
    (∀ s ∈ payload0.symptoms,
      (∃ piece ∈ splitOnComma form0.symptoms, s = trimSym piece) ∧ s ≠ []) ∧
    (payload0.symptoms.map lowerSym).Nodup ∧
    payload0.symptoms.map lowerSym
      = firstOccDedup ((cleanSymptoms form0.symptoms).map lowerSym) :=
  symptoms_payload_dedup form0 payload0 rfl

